import Mathlib

/-!
Verification of the purpleair client library (Go) against its
natural-language specification.

This file shallowly embeds the parts of the source relevant to the
claims: the bulk-response transcoder `sensorsInfo` (response-translation
loop), the parameter-validation loops of `SensorData`, `SensorsData` and
`MembersData`, the key-management operations `CheckAPIKey` / `SetAPIKey`,
and the `CreateGroup` facade operation.

Modelling conventions:
- Go maps (`map[string]interface{}`, `map[int]SensorDataRow`) are
  modelled as association lists with Go-map insert (overwrite-on-existing
  -key) and lookup; keys built only through `gmapInsert` stay unique.
- JSON-decoded dynamic values (`interface{}`) are modelled by the
  inductive `JVal`.  Go decodes JSON numbers as `float64` and the source
  converts them with `int(v.(float64))`; the payloads the claims concern
  carry integer-valued numbers, which `JVal.num` holds directly as `Int`.
- A Go runtime panic (slice index out of range, failed type assertion)
  is modelled by the `TResult.crashed` outcome, kept distinct from an
  error value returned to the caller (`TResult.err`).
- The process-wide retained-key variables `apiReadKey` / `apiWriteKey`
  are modelled by explicit state passing (`KeyState`).
- The HTTP round trip is opaque to the library; it is modelled by an
  explicit "world" argument carrying the transport outcome.
-/

namespace Purpleair

/-- Dynamic JSON value as decoded into a Go `interface{}`.
Numbers decode to `float64` in Go; the integer-valued numbers relevant
to the claims are carried as `Int` (see module conventions). -/
inductive JVal where
  | num (n : Int)
  | str (s : String)
  | boolean (b : Bool)
  | null
deriving Repr, DecidableEq

/-- Go map insert (`m[k] = v`): overwrite the binding if the key is
present, otherwise add it.  Association-list model of a Go map. -/
def gmapInsert {κ α : Type} [DecidableEq κ] : List (κ × α) → κ → α → List (κ × α)
  | [], k, v => [(k, v)]
  | (k₀, v₀) :: rest, k, v =>
      if k₀ = k then (k, v) :: rest else (k₀, v₀) :: gmapInsert rest k v

/-- Go map lookup (`m[k]`), returning `none` when the key is absent. -/
def gmapLookup {κ α : Type} [DecidableEq κ] : List (κ × α) → κ → Option α
  | [], _ => none
  | (k₀, v₀) :: rest, k => if k₀ = k then some v₀ else gmapLookup rest k

/-- Keys of a Go-map model, in representation order. -/
def gmapKeys {κ α : Type} (m : List (κ × α)) : List κ := m.map Prod.fst

/-- Error taxonomy of the library, one constructor per distinguishable
error shape produced by the source. -/
inductive PAErr where
  | unexpectedParam (k : String)
  | requiredParamMissing (k : String)
  | badParamType (k : String) (t : String)
  | authErr (msg : String)
  | decodeErr (msg : String)
  | remoteErr (msg : String)
  | transportErr (msg : String)
deriving Repr, DecidableEq

/-- Error message strings as formatted by the source
(`sensors.go`, `part_003`). -/
def PAErr.message : PAErr → String
  | .unexpectedParam k => "Unexpected sensor param encountered [" ++ k ++ "]"
  | .requiredParamMissing k => "Required sensor param not found [" ++ k ++ "]"
  | .badParamType k t => "Unexpected value type for sensor param [" ++ k ++ ":" ++ t ++ "]"
  | .authErr m => m
  | .decodeErr m => m
  | .remoteErr m => m
  | .transportErr m => m

/-- Outcome of running a piece of Go code: a value, an error value
returned to the caller, or a runtime panic (crash). -/
inductive TResult (α : Type) where
  | ok (a : α)
  | err (e : PAErr)
  | crashed (msg : String)
deriving Repr, DecidableEq

/-- Per-sensor field map (`SensorDataRow = map[DataField]interface{}`). -/
abbrev SensorDataRow := List (String × JVal)

/-- Bulk data set (`SensorDataSet = map[int]SensorDataRow`). -/
abbrev SensorDataSet := List (Int × SensorDataRow)

/-- Decoded bulk-query response body (`sensorsResp` in `sensorsInfo`,
part_003 lines 396-408), restricted to the fields the translation loop
reads: the field-name list, the three lookup tables and the row matrix. -/
structure SensorsResp where
  fields : List String
  locs   : List String
  states : List String
  flags  : List String
  data   : List (List JVal)
deriving Repr, DecidableEq

/-- Enumerated-value substitution `table[int(v.(float64))]` from the
translation loop of `sensorsInfo`: the type assertion panics when the
value is not a number, and the slice index panics when the code is out
of range of the lookup table. -/
def lookupLabel (table : List String) (v : JVal) : TResult String :=
  match v with
  | .num n =>
      if n < 0 then .crashed "runtime error: index out of range"
      else
        match table.get? n.toNat with
        | some l => .ok l
        | none => .crashed "runtime error: index out of range"
  | _ => .crashed "interface conversion: interface is not float64"

/-- Inner loop of `sensorsInfo` (part_003 lines 424-435): walk the row
positionally, resolve the field name at each position (panicking when
the row is longer than the field list), substitute the three enumerated
cases from their lookup tables and keep every other value raw. -/
def transcodeRow (resp : SensorsResp) : List JVal → Nat → SensorDataRow → TResult SensorDataRow
  | [], _, row => .ok row
  | v :: rest, j, row =>
      match resp.fields.get? j with
      | none => .crashed "runtime error: index out of range"
      | some k =>
          if k = "location_type" then
            match lookupLabel resp.locs v with
            | .ok l => transcodeRow resp rest (j + 1) (gmapInsert row k (JVal.str l))
            | .err e => .err e
            | .crashed m => .crashed m
          else if k = "channel_states" then
            match lookupLabel resp.states v with
            | .ok l => transcodeRow resp rest (j + 1) (gmapInsert row k (JVal.str l))
            | .err e => .err e
            | .crashed m => .crashed m
          else if k = "channel_flags" then
            match lookupLabel resp.flags v with
            | .ok l => transcodeRow resp rest (j + 1) (gmapInsert row k (JVal.str l))
            | .err e => .err e
            | .crashed m => .crashed m
          else
            transcodeRow resp rest (j + 1) (gmapInsert row k v)

/-- Outer loop of `sensorsInfo` (part_003 lines 420-444): transcode each
row, look up its `sensor_index` entry (a missing entry aborts the whole
call with an error; a non-numeric one panics in `int(si.(float64))`) and
key the accumulated data set by that index. -/
def transcodeData (resp : SensorsResp) : List (List JVal) → SensorDataSet → TResult SensorDataSet
  | [], data => .ok data
  | r :: rest, data =>
      match transcodeRow resp r 0 [] with
      | .err e => .err e
      | .crashed m => .crashed m
      | .ok row =>
          match gmapLookup row "sensor_index" with
          | some (JVal.num si) => transcodeData resp rest (gmapInsert data si row)
          | some _ => .crashed "interface conversion: interface is not float64"
          | none => .err (PAErr.decodeErr "Required element not found [sensor_index]")

/-- Response-translation portion of `sensorsInfo` (part_003 lines
420-452), applied to an already-decoded bulk payload. -/
def sensorsInfoData (resp : SensorsResp) : TResult SensorDataSet :=
  transcodeData resp resp.data []

/-- DataFields (sensors.go lines 11-51): the list of all available wire
field names for sensor queries. -/
def DataFields : List String :=
  ["name", "icon", "model", "hardware", "location_type", "private", "latitude",
   "longitude", "altitude", "position_rating", "led_brightness", "firmware_version",
   "firmware_upgrade", "rssi", "uptime", "pa_latency", "memory", "last_seen",
   "last_modified", "date_created", "channel_state", "channel_flags", "channel_flags_manual",
   "channel_flags_auto", "confidence", "confidence_manual", "confidence_auto",
   "humidity", "humidity_a", "humidity_b", "temperature", "temperature_a",
   "temperature_b", "pressure", "pressure_a", "pressure_b",
   "voc", "voc_a", "voc_b", "ozone1", "analog_input",
   "pm1.0", "pm1.0_a", "pm1.0_b", "pm1.0_atm", "pm1.0_atm_a", "pm1.0_atm_b",
   "pm1.0_cf_1", "pm1.0_cf_1_a", "pm1.0_cf_1_b",
   "pm2.5_alt", "pm2.5_alt_a", "pm2.5_alt_b", "pm2.5", "pm2.5_a", "pm2.5_b",
   "pm2.5_atm", "pm2.5_atm_a", "pm2.5_atm_b", "pm2.5_cf_1", "pm2.5_cf_1_a",
   "pm2.5_cf_1_b",
   "pm2.5_10minute", "pm2.5_10minute_a", "pm2.5_10minute_b",
   "pm2.5_30minute", "pm2.5_30minute_a", "pm2.5_30minute_b",
   "pm2.5_60minute", "pm2.5_60minute_a", "pm2.5_60minute_b",
   "pm2.5_6hour", "pm2.5_6hour_a", "pm2.5_6hour_b",
   "pm2.5_24hour", "pm2.5_24hour_a", "pm2.5_24hour_b",
   "pm2.5_1week", "pm2.5_1week_a", "pm2.5_1week_b",
   "pm10.0", "pm10.0_a", "pm10.0_b", "pm10.0_atm", "pm10.0_atm_a", "pm10.0_atm_b",
   "pm10.0_cf_1", "pm10.0_cf_1_a", "pm10.0_cf_1_b",
   "0.3_um_count", "0.3_um_count_a", "0.3_um_count_b",
   "0.5_um_count", "0.5_um_count_a", "0.5_um_count_b",
   "1.0_um_count", "1.0_um_count_a", "1.0_um_count_b",
   "2.5_um_count", "2.5_um_count_a", "2.5_um_count_b",
   "5.0_um_count", "5.0_um_count_a", "5.0_um_count_b",
   "10.0_um_count", "10.0_um_count_a", "10.0_um_count_b",
   "primary_id_a", "primary_key_a", "secondary_id_a", "secondary_key_a",
   "primary_id_b", "primary_key_b", "secondary_id_b", "secondary_key_b"]

/-- Sensor query parameter key constants (part_000 lines 310-322). -/
def paramFields : String := "fields"

def paramLocation : String := "location_type"

def paramReadKey : String := "read_key"

def paramReadKeys : String := "read_keys"

def paramShowOnly : String := "show_only"

def paramModTime : String := "modified_since"

def paramMaxAge : String := "max_age"

def paramNWLong : String := "nwlng"

def paramNWLat : String := "nwlat"

def paramSELong : String := "selng"

def paramSELat : String := "selat"

/-- Dynamic Go value held in a `SensorParams` entry (`interface{}`).
The constructors mirror the dynamic types the library stores in the
parameter map (part_000 `AddParam` implementations): `string` for the
comma-joined list parameters, `purpleair.Location` for the location
enum, integers for the epoch-second parameters, and `float64` for the
bounding-box coordinates (payload held opaquely as `Int`, since no
claim computes with a coordinate value). -/
inductive PVal where
  | str (s : String)
  | int (n : Int)
  | loc (n : Int)
  | float (f : Int)
deriving Repr, DecidableEq

/-- Name of the dynamic Go type of a parameter value (`%T`). -/
def PVal.typeName : PVal → String
  | .str _ => "string"
  | .int _ => "int"
  | .loc _ => "purpleair.Location"
  | .float _ => "float64"

/-- SensorParams (`map[string]interface{}`, part_000 line 306).  A Go
map iterates in unspecified order; the list order stands in for one
arbitrary iteration order, and the theorems quantify accordingly. -/
abbrev SensorParams := List (String × PVal)

/-- Keys permitted for the bulk queries `SensorsData` / `MembersData`
(the case arms of their validation switch). -/
def bulkAllowedKey (k : String) : Bool :=
  k = paramFields || k = paramLocation || k = paramReadKeys || k = paramShowOnly ||
  k = paramModTime || k = paramMaxAge ||
  k = paramNWLong || k = paramNWLat || k = paramSELong || k = paramSELat

/-- Keys permitted for the single-sensor query `SensorData`
(sensors.go lines 65-71). -/
def singleAllowedKey (k : String) : Bool :=
  k = paramFields || k = paramReadKey

/-- Parameter-validation loop of `SensorsData` (sensors.go lines
87-102): walk the supplied keys, record whether `fields` was seen,
reject the first key outside the allow-list, and afterwards reject the
whole set when `fields` was never seen. -/
def sensorsDataCheck : SensorParams → Bool → Option PAErr
  | [], requiredField =>
      if requiredField then none else some (.requiredParamMissing paramFields)
  | (k, _) :: rest, requiredField =>
      if k = paramFields then sensorsDataCheck rest true
      else if k = paramLocation ∨ k = paramReadKeys ∨ k = paramShowOnly ∨
              k = paramModTime ∨ k = paramMaxAge then sensorsDataCheck rest requiredField
      else if k = paramNWLong ∨ k = paramNWLat ∨ k = paramSELong ∨ k = paramSELat then
        sensorsDataCheck rest requiredField
      else some (.unexpectedParam k)

/-- Parameter-validation loop of `MembersData` (part_003 lines 273-288),
textually the same switch as the one in `SensorsData`. -/
def membersDataCheck : SensorParams → Bool → Option PAErr
  | [], requiredField =>
      if requiredField then none else some (.requiredParamMissing paramFields)
  | (k, _) :: rest, requiredField =>
      if k = paramFields then membersDataCheck rest true
      else if k = paramLocation ∨ k = paramReadKeys ∨ k = paramShowOnly ∨
              k = paramModTime ∨ k = paramMaxAge then membersDataCheck rest requiredField
      else if k = paramNWLong ∨ k = paramNWLat ∨ k = paramSELong ∨ k = paramSELat then
        membersDataCheck rest requiredField
      else some (.unexpectedParam k)

/-- Parameter-validation loop of `SensorData` (sensors.go lines 65-71):
only `fields` and `read_key` are permitted; the first other key is
rejected. -/
def sensorDataCheck : SensorParams → Option PAErr
  | [] => none
  | (k, _) :: rest =>
      if k = paramFields ∨ k = paramReadKey then sensorDataCheck rest
      else some (.unexpectedParam k)

/-- Modelled from the spec: the accepted value type for each parameter
key.  The encoding step of `paSensor` / `paSensors` is code of this
repository that is not under src/ (sensors.go and part_003 only call
them); spec section 4.2 specifies that each parameter key has exactly
one accepted value type — the comma-joined list parameters and read-key
override carry strings, the location enum its own type, the
epoch-second parameters integers, and the bounding-box corners decimal
floats. -/
def acceptedType (k : String) : String :=
  if k = paramFields ∨ k = paramReadKey ∨ k = paramReadKeys ∨ k = paramShowOnly then "string"
  else if k = paramLocation then "purpleair.Location"
  else if k = paramModTime ∨ k = paramMaxAge then "int"
  else "float64"

/-- Modelled from the spec: the parameter-encoding step shared by
`paSensor` and `paSensors`, which is not under src/.  Per spec section
4.2, supplying a key with a value of the wrong accepted type is a
validation error naming the key and the offending type, and a key
outside the operation's allow-list is a validation error naming the
key. -/
def paSensorParams (allowed : String → Bool) : SensorParams → Option PAErr
  | [] => none
  | (k, v) :: rest =>
      if allowed k then
        if v.typeName = acceptedType k then paSensorParams allowed rest
        else some (.badParamType k v.typeName)
      else some (.unexpectedParam k)

/-- Full local parameter validation of `SensorData`: the facade
allow-list loop followed by the (spec-modelled) typed encoding in
`paSensor`. -/
def sensorDataValidate (sp : SensorParams) : Option PAErr :=
  match sensorDataCheck sp with
  | some e => some e
  | none => paSensorParams singleAllowedKey sp

/-- Full local parameter validation of `SensorsData`: the facade
allow-list / required-key loop followed by the (spec-modelled) typed
encoding in `paSensors`. -/
def sensorsDataValidate (sp : SensorParams) : Option PAErr :=
  match sensorsDataCheck sp false with
  | some e => some e
  | none => paSensorParams bulkAllowedKey sp

/-- Full local parameter validation of `MembersData`. -/
def membersDataValidate (sp : SensorParams) : Option PAErr :=
  match membersDataCheck sp false with
  | some e => some e
  | none => paSensorParams bulkAllowedKey sp

/-- SensorsData facade (sensors.go lines 81-105) with the network call
`paSensors` held abstract: when the local validation loop rejects, the
call returns that error without consulting the network outcome. -/
def SensorsData (sp : SensorParams) (net : Except PAErr SensorDataSet) :
    Except PAErr SensorDataSet :=
  match sensorsDataCheck sp false with
  | some e => .error e
  | none => net

/-- MembersData facade (part_003 lines 267-291) with the network call
`paSensors` held abstract. -/
def MembersData (sp : SensorParams) (net : Except PAErr SensorDataSet) :
    Except PAErr SensorDataSet :=
  match membersDataCheck sp false with
  | some e => .error e
  | none => net

/-- KeyType is a retyped string in the source (part_000 line 165). -/
abbrev KeyType := String

/-- KeyType constant UNKNOWN (part_000 lines 167-173). -/
def KeyUnknown : KeyType := "UNKNOWN"

/-- KeyType constant READ. -/
def KeyRead : KeyType := "READ"

/-- KeyType constant WRITE. -/
def KeyWrite : KeyType := "WRITE"

/-- KeyType constant READ_DISABLED. -/
def KeyReadDisabled : KeyType := "READ_DISABLED"

/-- KeyType constant WRITE_DISABLED. -/
def KeyWriteDisabled : KeyType := "WRITE_DISABLED"

/-- Process-wide retained-key state (`apiReadKey`, `apiWriteKey`,
part_003 lines 496-499), made explicit. -/
structure KeyState where
  apiReadKey : String
  apiWriteKey : String
deriving Repr, DecidableEq

/-- Body of an HTTP response from the remote service, as far as the
library's decoders can distinguish it: a body that decodes into the
expected success payload, a body on which JSON decoding fails, or an
error/description payload. -/
inductive RespBody where
  | keyPayload (kt : KeyType)
  | groupPayload (gid : Int)
  | badBody (msg : String)
  | errPayload (e : String) (d : String)
deriving Repr, DecidableEq

/-- Outcome of one HTTP round trip, the opaque transport collaborator:
request construction can fail, the send can fail, or a status and body
come back. -/
inductive HttpWorld where
  | reqFail (msg : String)
  | doFail (msg : String)
  | resp (status : Nat) (body : RespBody)
deriving Repr, DecidableEq

/-- Error extraction for a non-success response.  `paError` is called
throughout part_003 but its body is not under src/; the same routine is
in src as `extractError` (part_004 lines 420-441): decode the
error/description payload and combine the message as "error:
description" when a description is present, else just "error"; a body
that does not decode propagates the decode failure; a body without the
error fields decodes to zero values, producing an error with an empty
message (still a non-nil error value). -/
def paError (b : RespBody) : PAErr :=
  match b with
  | .errPayload e d => .remoteErr (if d = "" then e else e ++ ": " ++ d)
  | .keyPayload _ => .remoteErr ""
  | .groupPayload _ => .remoteErr ""
  | .badBody m => .decodeErr m

/-- CheckAPIKey (part_003 lines 524-553): build the request (failure
propagates), execute it (transport failure propagates), demand status
201 Created (anything else yields `paError`), then decode the
`api_key_type` payload.  Every failure path pairs the Unknown
classification with the error. -/
def CheckAPIKey (k : String) (w : HttpWorld) : KeyType × Option PAErr :=
  match w with
  | .reqFail m => (KeyUnknown, some (.transportErr m))
  | .doFail m => (KeyUnknown, some (.transportErr m))
  | .resp status body =>
      if status ≠ 201 then (KeyUnknown, some (paError body))
      else
        match body with
        | .keyPayload kt => (kt, none)
        | .groupPayload _ => ("", none)
        | .errPayload _ _ => ("", none)
        | .badBody m => (KeyUnknown, some (.decodeErr m))

/-- CheckAPIKey with the retained-key state threaded through.  The
source function reads neither `apiReadKey` nor `apiWriteKey` and
assigns neither, so the state passes through unchanged; `k` only ever
enters the request header. -/
def CheckAPIKeySt (k : String) (w : HttpWorld) (st : KeyState) :
    (KeyType × Option PAErr) × KeyState :=
  (CheckAPIKey k w, st)

/-- SetAPIKey (part_003 lines 504-519): validate via `CheckAPIKey`;
on error return Unknown with the error and leave the state alone; on
success store the key in the read slot for a READ classification, the
write slot for WRITE, and nowhere otherwise. -/
def SetAPIKeySt (k : String) (w : HttpWorld) (st : KeyState) :
    (KeyType × Option PAErr) × KeyState :=
  match CheckAPIKey k w with
  | (_, some e) => ((KeyUnknown, some e), st)
  | (kt, none) =>
      if kt = KeyRead then ((kt, none), { st with apiReadKey := k })
      else if kt = KeyWrite then ((kt, none), { st with apiWriteKey := k })
      else ((kt, none), st)

/-- GroupID is a retyped int (part_000 line 191). -/
abbrev GroupID := Int

/-- Access-key attachment step of `doRequest` (part_004 lines 395-408):
GET requires a retained read key, POST and DELETE a retained write key;
a missing key or an unexpected method fails before any send. -/
def doRequestKeyCheck (method : String) (st : KeyState) : Option PAErr :=
  if method = "GET" then
    if st.apiReadKey.length = 0 then some (.authErr "PurpleAir key not set [read]") else none
  else if method = "POST" ∨ method = "DELETE" then
    if st.apiWriteKey.length = 0 then some (.authErr "PurpleAir key not set [write]") else none
  else some (.transportErr ("Unexpected request method [" ++ method ++ "]"))

/-- doRequest (part_004 lines 388-417): build the request, attach the
key required by the method, execute, and pass transport failures
through unmodified. -/
def doRequest (method : String) (st : KeyState) (w : HttpWorld) :
    Except PAErr (Nat × RespBody) :=
  match w with
  | .reqFail m => .error (.transportErr m)
  | .doFail m =>
      match doRequestKeyCheck method st with
      | some e => .error e
      | none => .error (.transportErr m)
  | .resp s b =>
      match doRequestKeyCheck method st with
      | some e => .error e
      | none => .ok (s, b)

/-- CreateGroup (part_003 lines 13-49): marshal the name (cannot fail
for a plain string), parse the constant URL (cannot fail), POST via
`doRequest`, demand 201 Created, decode the `group_id` payload.  The
source returns `0, nil` — value 0 with a nil error — when `doRequest`
fails (line 30). -/
def CreateGroup (g : String) (st : KeyState) (w : HttpWorld) : Except PAErr GroupID :=
  match doRequest "POST" st w with
  | .error _ => .ok 0
  | .ok (status, body) =>
      if status ≠ 201 then .error (paError body)
      else
        match body with
        | .groupPayload gid => .ok gid
        | .keyPayload _ => .ok 0
        | .errPayload _ _ => .ok 0
        | .badBody m => .error (.decodeErr m)

/-- Discriminator: the outcome is a success value. -/
def TResult.isOk {α : Type} : TResult α → Bool
  | .ok _ => true
  | _ => false

/-- Discriminator: the outcome is an error value returned to the
caller (as opposed to a success or a crash). -/
def TResult.isErr {α : Type} : TResult α → Bool
  | .err _ => true
  | _ => false

/-- Field value of a transcoded bulk result at a given sensor index,
`none` when the call failed, the index is absent, or the field is
absent. -/
def bulkLookup (t : TResult SensorDataSet) (i : Int) (f : String) : Option JVal :=
  match t with
  | .ok m =>
      match gmapLookup m i with
      | some row => gmapLookup row f
      | none => none
  | _ => none

/-- Sensor-index keys of a transcoded bulk result. -/
def bulkKeys (t : TResult SensorDataSet) : List Int :=
  match t with
  | .ok m => gmapKeys m
  | _ => []

/-- Number of entries of a transcoded bulk result. -/
def bulkSize (t : TResult SensorDataSet) : Nat :=
  match t with
  | .ok m => m.length
  | _ => 0

/-- Transcoded row paired with its sensor-index key, when the row
transcodes cleanly and carries a numeric `sensor_index` entry — the
exact condition under which the outer loop of `sensorsInfo` stores the
row. -/
def rowPack (resp : SensorsResp) (r : List JVal) : Option (Int × SensorDataRow) :=
  match transcodeRow resp r 0 [] with
  | .ok row =>
      match gmapLookup row "sensor_index" with
      | some (JVal.num si) => some (si, row)
      | _ => none
  | _ => none

/-- Sensor-index key a row contributes, when any. -/
def rowKey (resp : SensorsResp) (r : List JVal) : Option Int :=
  (rowPack resp r).map Prod.fst

/-- Fold a list of keyed rows into a Go map by successive inserts. -/
def insertAll (l : List (Int × SensorDataRow)) (acc : SensorDataSet) : SensorDataSet :=
  l.foldl (fun a p => gmapInsert a p.1 p.2) acc

/-- Discriminator: the validation outcome is the wrong-type error. -/
def isBadParamTypeErr : Option PAErr → Bool
  | some (.badParamType _ _) => true
  | _ => false

/-- Discriminator: the validation outcome is the disallowed-key error. -/
def isUnexpectedParamErr : Option PAErr → Bool
  | some (.unexpectedParam _) => true
  | _ => false

/-- Payload of claim C2: field list ["sensor_index", "location_type"],
location lookup table ["outside", "inside"], one data row [42, 1]. -/
def c2Resp : SensorsResp :=
  { fields := ["sensor_index", "location_type"], locs := ["outside", "inside"],
    states := [], flags := [], data := [[JVal.num 42, JVal.num 1]] }

/-- Payload for claim C1's counterexample: two rows, each with a
sensor_index column, both carrying sensor index 42. -/
def c1DupResp : SensorsResp :=
  { fields := ["sensor_index"], locs := [], states := [], flags := [],
    data := [[JVal.num 42], [JVal.num 42]] }

/-- Payload for claim C1's witness: two rows with distinct sensor
indices. -/
def c1WResp : SensorsResp :=
  { fields := ["sensor_index"], locs := [], states := [], flags := [],
    data := [[JVal.num 1], [JVal.num 2]] }

/-- Payload for claim C3: a column named "channel_state" — the wire
name listed in DataFields — with channel-states lookup table
["No PM", "A only"] and row [42, 1]. -/
def c3Resp : SensorsResp :=
  { fields := ["sensor_index", "channel_state"], locs := [],
    states := ["No PM", "A only"], flags := [], data := [[JVal.num 42, JVal.num 1]] }

/-- Payload for claim C9: the location lookup table is absent (empty)
while a row references location code 0. -/
def c9Resp : SensorsResp :=
  { fields := ["sensor_index", "location_type"], locs := [],
    states := [], flags := [], data := [[JVal.num 42, JVal.num 0]] }

/-- Key state with no retained keys (process start). -/
def noKeys : KeyState := { apiReadKey := "", apiWriteKey := "" }

/-- C2: transcoding the bulk payload with field list
["sensor_index", "location_type"], location lookup table
["outside", "inside"] and the single data row [42, 1] yields a Bulk
Data Set whose only key is 42, mapping "location_type" to the label
"inside" — the numeric code 1 resolved by positional indexing into the
lookup table — and also carrying the raw sensor_index entry. -/
theorem c2_location_label_resolved :
    TResult.isOk (sensorsInfoData c2Resp) = true ∧
    bulkKeys (sensorsInfoData c2Resp) = [42] ∧
    bulkLookup (sensorsInfoData c2Resp) 42 "location_type" = some (JVal.str "inside") ∧
    bulkLookup (sensorsInfoData c2Resp) 42 "sensor_index" = some (JVal.num 42) := by
  decide

/-- C3: the wire name for channel state listed in DataFields is
"channel_state", but the substitution arm of the translation loop
matches the name "channel_states" (which DataFields does not list), so
a column carrying the DataFields wire name keeps its raw numeric code 1
instead of receiving the label at index 1 of the channel-states lookup
table. -/
theorem c3_channel_state_kept_raw :
    DataFields.contains "channel_state" = true ∧
    DataFields.contains "channel_states" = false ∧
    c3Resp.states.get? 1 = some "A only" ∧
    TResult.isOk (sensorsInfoData c3Resp) = true ∧
    bulkLookup (sensorsInfoData c3Resp) 42 "channel_state" = some (JVal.num 1) := by
  decide

/-- C9: with the location lookup table absent (empty) and a row
referencing location code 0, the transcoder crashes with a Go
index-out-of-range panic; it does not return an error value (a
DecodeError) to the caller. -/
theorem c9_missing_table_crashes :
    sensorsInfoData c9Resp = TResult.crashed "runtime error: index out of range" ∧
    TResult.isErr (sensorsInfoData c9Resp) = false ∧
    TResult.isOk (sensorsInfoData c9Resp) = false := by
  decide

/-- C4: when the underlying `doRequest` of CreateGroup fails — here
because no write key is retained, and alternatively because the
transport fails — CreateGroup returns GroupID 0 with a nil error: the
failure is swallowed instead of being returned to the caller
(part_003 line 30 reads `return 0, nil`). -/
theorem c4_creategroup_swallows_failure :
    doRequest "POST" noKeys (HttpWorld.resp 201 (RespBody.groupPayload 77)) =
      Except.error (PAErr.authErr "PurpleAir key not set [write]") ∧
    CreateGroup "testgroup" noKeys (HttpWorld.resp 201 (RespBody.groupPayload 77)) =
      Except.ok 0 ∧
    doRequest "POST" { apiReadKey := "", apiWriteKey := "wkey" }
        (HttpWorld.doFail "connection refused") =
      Except.error (PAErr.transportErr "connection refused") ∧
    CreateGroup "testgroup" { apiReadKey := "", apiWriteKey := "wkey" }
        (HttpWorld.doFail "connection refused") =
      Except.ok 0 :=
  ⟨rfl, rfl, rfl, rfl⟩

/-- Result component of SetAPIKey: forwarded from CheckAPIKey, with an
error collapsed to the Unknown classification. -/
theorem setAPIKeySt_fst (k : String) (w : HttpWorld) (st : KeyState) :
    (SetAPIKeySt k w st).1 =
      (match CheckAPIKey k w with
       | (_, some e) => (KeyUnknown, some e)
       | (kt, none) => (kt, none)) := by
  rcases h : CheckAPIKey k w with ⟨kt, oe⟩
  cases oe with
  | none =>
      simp only [SetAPIKeySt, h]
      split_ifs <;> rfl
  | some e => simp only [SetAPIKeySt, h]

/-- C5: CheckAPIKey and SetAPIKey return the classification decoded
from the service response exactly when the key-validation response has
HTTP status 201 Created; for any other status (including 200 OK) and
for any transport failure, both return the Unknown classification
paired with a non-nil error. -/
theorem c5_key_validation_status (k : String) (st : KeyState) :
    (∀ kt, CheckAPIKey k (HttpWorld.resp 201 (RespBody.keyPayload kt)) = (kt, none) ∧
      (SetAPIKeySt k (HttpWorld.resp 201 (RespBody.keyPayload kt)) st).1 = (kt, none)) ∧
    (∀ s b, s ≠ 201 →
      CheckAPIKey k (HttpWorld.resp s b) = (KeyUnknown, some (paError b)) ∧
      (SetAPIKeySt k (HttpWorld.resp s b) st).1 = (KeyUnknown, some (paError b))) ∧
    (∀ m, CheckAPIKey k (HttpWorld.doFail m) = (KeyUnknown, some (PAErr.transportErr m)) ∧
      (SetAPIKeySt k (HttpWorld.doFail m) st).1 = (KeyUnknown, some (PAErr.transportErr m))) ∧
    (∀ m, CheckAPIKey k (HttpWorld.reqFail m) = (KeyUnknown, some (PAErr.transportErr m)) ∧
      (SetAPIKeySt k (HttpWorld.reqFail m) st).1 = (KeyUnknown, some (PAErr.transportErr m))) := by
  refine ⟨fun kt => ⟨rfl, ?_⟩, fun s b hs => ?_, fun m => ⟨rfl, ?_⟩, fun m => ⟨rfl, ?_⟩⟩
  · rw [setAPIKeySt_fst]; exact rfl
  · have hc : CheckAPIKey k (HttpWorld.resp s b) = (KeyUnknown, some (paError b)) := by
      simp [CheckAPIKey, hs]
    exact ⟨hc, by rw [setAPIKeySt_fst, hc]⟩
  · rw [setAPIKeySt_fst]; exact rfl
  · rw [setAPIKeySt_fst]; exact rfl

/-- C5 witness: a 200 OK response — the status the remote service does
not use for success — yields the Unknown classification and an error
from both operations. -/
theorem c5_key_validation_status_witness :
    CheckAPIKey "BOGUS" (HttpWorld.resp 200 (RespBody.errPayload "ApiKeyInvalidError" "")) =
      (KeyUnknown, some (paError (RespBody.errPayload "ApiKeyInvalidError" ""))) ∧
    (SetAPIKeySt "BOGUS" (HttpWorld.resp 200 (RespBody.errPayload "ApiKeyInvalidError" ""))
        noKeys).1 =
      (KeyUnknown, some (paError (RespBody.errPayload "ApiKeyInvalidError" ""))) :=
  (c5_key_validation_status "BOGUS" noKeys).2.1 200
    (RespBody.errPayload "ApiKeyInvalidError" "") (by decide)

/-- C6: CheckAPIKey never modifies the retained read-key or write-key
state; SetAPIKey stores the key into the retained read slot exactly
when validation succeeds with the READ classification and into the
write slot exactly when it succeeds with WRITE, in each case leaving
the other slot unchanged, and leaves both slots unchanged on every
other classification (UNKNOWN, READ_DISABLED, WRITE_DISABLED) and on a
validation error. -/
theorem c6_retained_key_frame (k : String) (w : HttpWorld) (st : KeyState) :
    (CheckAPIKeySt k w st).2 = st ∧
    (SetAPIKeySt k w st).2.apiReadKey =
      (if (CheckAPIKey k w).2 = none ∧ (CheckAPIKey k w).1 = KeyRead then k
       else st.apiReadKey) ∧
    (SetAPIKeySt k w st).2.apiWriteKey =
      (if (CheckAPIKey k w).2 = none ∧ (CheckAPIKey k w).1 = KeyWrite then k
       else st.apiWriteKey) := by
  refine ⟨rfl, ?_, ?_⟩ <;>
  · rcases h : CheckAPIKey k w with ⟨kt, oe⟩
    cases oe with
    | none =>
        simp only [SetAPIKeySt, h]
        split_ifs <;> simp_all [KeyRead, KeyWrite]
    | some e => simp [SetAPIKeySt, h]

/-- The validation loop of MembersData behaves identically to the one
of SensorsData (the source duplicates the switch verbatim). -/
theorem membersDataCheck_eq (sp : SensorParams) (b : Bool) :
    membersDataCheck sp b = sensorsDataCheck sp b := by
  induction sp generalizing b with
  | nil => rfl
  | cons q rest ih =>
      obtain ⟨k, v⟩ := q
      simp only [membersDataCheck, sensorsDataCheck]
      split_ifs <;> first | exact ih _ | rfl

/-- Stepping the SensorsData validation loop over an allowed key other
than "fields" leaves the loop state unchanged. -/
theorem sensorsDataCheck_cons_allowed (k : String) (v : PVal) (rest : SensorParams) (b : Bool)
    (hk : bulkAllowedKey k = true) (hnf : k ≠ paramFields) :
    sensorsDataCheck ((k, v) :: rest) b = sensorsDataCheck rest b := by
  have hk2 : k = paramFields ∨ k = paramLocation ∨ k = paramReadKeys ∨ k = paramShowOnly ∨
      k = paramModTime ∨ k = paramMaxAge ∨ k = paramNWLong ∨ k = paramNWLat ∨
      k = paramSELong ∨ k = paramSELat := by
    simpa [bulkAllowedKey, or_assoc] using hk
  rcases hk2 with h | h | h | h | h | h | h | h | h | h
  · exact absurd h hnf
  all_goals
    subst h
    simp [sensorsDataCheck, paramFields, paramLocation, paramReadKeys, paramShowOnly,
      paramModTime, paramMaxAge, paramNWLong, paramNWLat, paramSELong, paramSELat]

/-- Stepping the SensorsData validation loop over the "fields" key
records that the required parameter was seen. -/
theorem sensorsDataCheck_cons_fields (v : PVal) (rest : SensorParams) (b : Bool) :
    sensorsDataCheck ((paramFields, v) :: rest) b = sensorsDataCheck rest true := by
  simp [sensorsDataCheck]

/-- Once "fields" has been seen, a parameter set of allowed keys passes
the SensorsData validation loop. -/
theorem sensorsDataCheck_true_of_allowed (sp : SensorParams)
    (hall : ∀ p ∈ sp, bulkAllowedKey p.1 = true) :
    sensorsDataCheck sp true = none := by
  induction sp with
  | nil => rfl
  | cons q rest ih =>
      obtain ⟨k, v⟩ := q
      have hrest : ∀ p ∈ rest, bulkAllowedKey p.1 = true :=
        fun p hp => hall p (List.mem_cons_of_mem _ hp)
      by_cases hf : k = paramFields
      · subst hf
        rw [sensorsDataCheck_cons_fields]
        exact ih hrest
      · rw [sensorsDataCheck_cons_allowed k v rest true (hall (k, v) (List.mem_cons_self _ _)) hf]
        exact ih hrest

/-- A parameter set of allowed keys that never supplies "fields" makes
the SensorsData validation loop report the required parameter as
missing. -/
theorem sensorsDataCheck_no_fields (sp : SensorParams)
    (hall : ∀ p ∈ sp, bulkAllowedKey p.1 = true)
    (hnf : ∀ p ∈ sp, p.1 ≠ paramFields) (b : Bool) :
    sensorsDataCheck sp b =
      if b then none else some (PAErr.requiredParamMissing paramFields) := by
  induction sp generalizing b with
  | nil => rfl
  | cons q rest ih =>
      obtain ⟨k, v⟩ := q
      rw [sensorsDataCheck_cons_allowed k v rest b (hall (k, v) (List.mem_cons_self _ _))
        (hnf (k, v) (List.mem_cons_self _ _))]
      exact ih (fun p hp => hall p (List.mem_cons_of_mem _ hp))
        (fun p hp => hnf p (List.mem_cons_of_mem _ hp)) b

/-- Appending a "fields" entry to a parameter set of allowed keys makes
the SensorsData validation loop pass. -/
theorem sensorsDataCheck_append_fields (sp : SensorParams)
    (hall : ∀ p ∈ sp, bulkAllowedKey p.1 = true) (v : PVal) (b : Bool) :
    sensorsDataCheck (sp ++ [(paramFields, v)]) b = none := by
  induction sp generalizing b with
  | nil => simp [sensorsDataCheck]
  | cons q rest ih =>
      obtain ⟨k, v₀⟩ := q
      have hrest : ∀ p ∈ rest, bulkAllowedKey p.1 = true :=
        fun p hp => hall p (List.mem_cons_of_mem _ hp)
      by_cases hf : k = paramFields
      · subst hf
        rw [List.cons_append, sensorsDataCheck_cons_fields]
        exact ih hrest true
      · rw [List.cons_append,
          sensorsDataCheck_cons_allowed k v₀ (rest ++ [(paramFields, v)]) b
            (hall (k, v₀) (List.mem_cons_self _ _)) hf]
        exact ih hrest b

/-- C7: a parameter set whose keys are all on the bulk allow-list but
which lacks the "fields" key makes SensorsData and MembersData fail
with the required-parameter error naming fields, whatever the network
outcome would have been (the rejection happens before any network
activity); appending a "fields" entry to the otherwise-identical set
makes both calls pass parameter validation and proceed to the network
result. -/
theorem c7_required_fields_param (sp : SensorParams)
    (hall : ∀ p ∈ sp, bulkAllowedKey p.1 = true)
    (hnf : ∀ p ∈ sp, p.1 ≠ paramFields) :
    (∀ net, SensorsData sp net = Except.error (PAErr.requiredParamMissing paramFields)) ∧
    (∀ net, MembersData sp net = Except.error (PAErr.requiredParamMissing paramFields)) ∧
    (∀ v net, SensorsData (sp ++ [(paramFields, v)]) net = net) ∧
    (∀ v net, MembersData (sp ++ [(paramFields, v)]) net = net) := by
  have h1 : sensorsDataCheck sp false = some (PAErr.requiredParamMissing paramFields) := by
    rw [sensorsDataCheck_no_fields sp hall hnf false]; rfl
  have h2 : membersDataCheck sp false = some (PAErr.requiredParamMissing paramFields) := by
    rw [membersDataCheck_eq]; exact h1
  have h3 : ∀ v, sensorsDataCheck (sp ++ [(paramFields, v)]) false = none :=
    fun v => sensorsDataCheck_append_fields sp hall v false
  have h4 : ∀ v, membersDataCheck (sp ++ [(paramFields, v)]) false = none := by
    intro v; rw [membersDataCheck_eq]; exact h3 v
  refine ⟨fun net => ?_, fun net => ?_, fun v net => ?_, fun v net => ?_⟩
  · simp [SensorsData, h1]
  · simp [MembersData, h2]
  · simp [SensorsData, h3 v]
  · simp [MembersData, h4 v]

/-- C7 witness: a show-only-keyed set is rejected for the missing
fields parameter; the same set with fields appended passes through to
the network result. -/
theorem c7_required_fields_param_witness :
    SensorsData [(paramShowOnly, PVal.str "9,10")] (Except.ok []) =
      Except.error (PAErr.requiredParamMissing paramFields) ∧
    MembersData ([(paramShowOnly, PVal.str "9,10")] ++ [(paramFields, PVal.str "name")])
      (Except.ok []) = Except.ok [] := by
  have h := c7_required_fields_param [(paramShowOnly, PVal.str "9,10")]
    (by decide) (by decide)
  exact ⟨h.1 (Except.ok []), h.2.2.2 (PVal.str "name") (Except.ok [])⟩

/-- The validation loop of SensorsData (and MembersData) stops at a
disallowed key with the unexpected-param error naming a disallowed key
of the set, whether or not "fields" was going to be missing. -/
theorem sensorsDataCheck_disallowed (sp : SensorParams) (b : Bool)
    (hbad : ∃ p ∈ sp, bulkAllowedKey p.1 = false) :
    ∃ k, bulkAllowedKey k = false ∧ (∃ v, (k, v) ∈ sp) ∧
      sensorsDataCheck sp b = some (PAErr.unexpectedParam k) := by
  induction sp generalizing b with
  | nil =>
      obtain ⟨p, hp, -⟩ := hbad
      cases hp
  | cons q rest ih =>
      obtain ⟨k, v⟩ := q
      by_cases hk : bulkAllowedKey k = true
      · have hrest : ∃ p ∈ rest, bulkAllowedKey p.1 = false := by
          obtain ⟨p, hp, hpbad⟩ := hbad
          rcases List.mem_cons.mp hp with h | h
          · subst h; rw [hk] at hpbad; cases hpbad
          · exact ⟨p, h, hpbad⟩
        by_cases hf : k = paramFields
        · subst hf
          rw [sensorsDataCheck_cons_fields]
          obtain ⟨k₀, hk₀, ⟨v₀, hv₀⟩, hres⟩ := ih true hrest
          exact ⟨k₀, hk₀, ⟨v₀, List.mem_cons_of_mem _ hv₀⟩, hres⟩
        · rw [sensorsDataCheck_cons_allowed k v rest b hk hf]
          obtain ⟨k₀, hk₀, ⟨v₀, hv₀⟩, hres⟩ := ih b hrest
          exact ⟨k₀, hk₀, ⟨v₀, List.mem_cons_of_mem _ hv₀⟩, hres⟩
      · have h1 : ¬(k = paramFields) := fun h => hk (by simp [bulkAllowedKey, h])
        have h2 : ¬(k = paramLocation ∨ k = paramReadKeys ∨ k = paramShowOnly ∨
            k = paramModTime ∨ k = paramMaxAge) := fun h => by
          rcases h with h | h | h | h | h <;> exact hk (by simp [bulkAllowedKey, h])
        have h3 : ¬(k = paramNWLong ∨ k = paramNWLat ∨ k = paramSELong ∨ k = paramSELat) :=
          fun h => by rcases h with h | h | h | h <;> exact hk (by simp [bulkAllowedKey, h])
        refine ⟨k, by simpa using hk, ⟨v, List.mem_cons_self _ _⟩, ?_⟩
        simp only [sensorsDataCheck]
        rw [if_neg h1, if_neg h2, if_neg h3]

/-- C10: the required-parameter error of SensorsData / MembersData can
only arise when every supplied key is on the allow-list: any parameter
set containing a disallowed key fails with the unexpected-param error
naming a disallowed key — regardless of whether "fields" is also
missing — and a set that produced the required-parameter error had all
of its keys on the allow-list. -/
theorem c10_allowlist_precedes_required (sp : SensorParams) :
    ((∃ p ∈ sp, bulkAllowedKey p.1 = false) →
      ∃ k, bulkAllowedKey k = false ∧ (∃ v, (k, v) ∈ sp) ∧
        sensorsDataCheck sp false = some (PAErr.unexpectedParam k) ∧
        membersDataCheck sp false = some (PAErr.unexpectedParam k) ∧
        (∀ net, SensorsData sp net = Except.error (PAErr.unexpectedParam k)) ∧
        (∀ net, MembersData sp net = Except.error (PAErr.unexpectedParam k))) ∧
    (sensorsDataCheck sp false = some (PAErr.requiredParamMissing paramFields) →
      ∀ p ∈ sp, bulkAllowedKey p.1 = true) ∧
    (membersDataCheck sp false = some (PAErr.requiredParamMissing paramFields) →
      ∀ p ∈ sp, bulkAllowedKey p.1 = true) := by
  have main : (∃ p ∈ sp, bulkAllowedKey p.1 = false) →
      ∃ k, bulkAllowedKey k = false ∧ (∃ v, (k, v) ∈ sp) ∧
        sensorsDataCheck sp false = some (PAErr.unexpectedParam k) ∧
        membersDataCheck sp false = some (PAErr.unexpectedParam k) ∧
        (∀ net, SensorsData sp net = Except.error (PAErr.unexpectedParam k)) ∧
        (∀ net, MembersData sp net = Except.error (PAErr.unexpectedParam k)) := by
    intro hbad
    obtain ⟨k, hk, hv, hres⟩ := sensorsDataCheck_disallowed sp false hbad
    have hres2 : membersDataCheck sp false = some (PAErr.unexpectedParam k) := by
      rw [membersDataCheck_eq]; exact hres
    exact ⟨k, hk, hv, hres, hres2, fun net => by simp [SensorsData, hres],
      fun net => by simp [MembersData, hres2]⟩
  refine ⟨main, fun hreq p hp => ?_, fun hreq p hp => ?_⟩
  · by_contra hc
    obtain ⟨k, -, -, hres, -⟩ := main ⟨p, hp, by simpa using hc⟩
    rw [hreq] at hres
    cases hres
  · by_contra hc
    obtain ⟨k, -, -, -, hres2, -⟩ := main ⟨p, hp, by simpa using hc⟩
    rw [membersDataCheck_eq] at hreq
    rw [membersDataCheck_eq] at hres2
    rw [hreq] at hres2
    cases hres2

/-- C10 witness: a set with the disallowed key "bogus" and no "fields"
key produces the unexpected-param error, not the required-param
error. -/
theorem c10_allowlist_precedes_required_witness :
    isUnexpectedParamErr (sensorsDataCheck [("bogus", PVal.str "x")] false) = true := by
  obtain ⟨k, -, -, hres, -⟩ :=
    (c10_allowlist_precedes_required [("bogus", PVal.str "x")]).1
      ⟨("bogus", PVal.str "x"), by decide, by decide⟩
  rw [hres]
  rfl

/-- The spec-modelled typed encoding rejects a wrongly-typed value for
an allowed key, naming an offending key and its dynamic type. -/
theorem paSensorParams_bad (allowed : String → Bool) (sp : SensorParams)
    (hall : ∀ p ∈ sp, allowed p.1 = true)
    (hbad : ∃ p ∈ sp, PVal.typeName p.2 ≠ acceptedType p.1) :
    ∃ k v, (k, v) ∈ sp ∧ PVal.typeName v ≠ acceptedType k ∧
      paSensorParams allowed sp = some (PAErr.badParamType k (PVal.typeName v)) := by
  induction sp with
  | nil =>
      obtain ⟨p, hp, -⟩ := hbad
      cases hp
  | cons q rest ih =>
      obtain ⟨k, v⟩ := q
      have hk := hall (k, v) (List.mem_cons_self _ _)
      by_cases ht : PVal.typeName v = acceptedType k
      · have hrest : ∃ p ∈ rest, PVal.typeName p.2 ≠ acceptedType p.1 := by
          obtain ⟨p, hp, hpbad⟩ := hbad
          rcases List.mem_cons.mp hp with h | h
          · subst h; exact absurd ht hpbad
          · exact ⟨p, h, hpbad⟩
        obtain ⟨k₀, v₀, hmem, hbad₀, hres⟩ :=
          ih (fun p hp => hall p (List.mem_cons_of_mem _ hp)) hrest
        refine ⟨k₀, v₀, List.mem_cons_of_mem _ hmem, hbad₀, ?_⟩
        simp only [paSensorParams]
        rw [if_pos hk, if_pos ht]
        exact hres
      · refine ⟨k, v, List.mem_cons_self _ _, ht, ?_⟩
        simp only [paSensorParams]
        rw [if_pos hk, if_neg ht]

/-- A parameter set of allowed keys passes the SensorData validation
loop. -/
theorem sensorDataCheck_allowed (sp : SensorParams)
    (hall : ∀ p ∈ sp, singleAllowedKey p.1 = true) :
    sensorDataCheck sp = none := by
  induction sp with
  | nil => rfl
  | cons q rest ih =>
      obtain ⟨k, v⟩ := q
      have hk : k = paramFields ∨ k = paramReadKey := by
        simpa [singleAllowedKey] using hall (k, v) (List.mem_cons_self _ _)
      simp only [sensorDataCheck]
      rw [if_pos hk]
      exact ih (fun p hp => hall p (List.mem_cons_of_mem _ hp))

/-- A parameter set of allowed bulk keys that supplies "fields"
passes the SensorsData validation loop. -/
theorem sensorsDataCheck_fields_present (sp : SensorParams)
    (hall : ∀ p ∈ sp, bulkAllowedKey p.1 = true)
    (hf : ∃ v, (paramFields, v) ∈ sp) (b : Bool) :
    sensorsDataCheck sp b = none := by
  induction sp generalizing b with
  | nil =>
      obtain ⟨v, hv⟩ := hf
      cases hv
  | cons q rest ih =>
      obtain ⟨k, v₀⟩ := q
      have hrest : ∀ p ∈ rest, bulkAllowedKey p.1 = true :=
        fun p hp => hall p (List.mem_cons_of_mem _ hp)
      by_cases hkf : k = paramFields
      · subst hkf
        rw [sensorsDataCheck_cons_fields]
        exact sensorsDataCheck_true_of_allowed rest hrest
      · rw [sensorsDataCheck_cons_allowed k v₀ rest b (hall (k, v₀) (List.mem_cons_self _ _)) hkf]
        refine ih hrest ?_ b
        obtain ⟨v, hv⟩ := hf
        rcases List.mem_cons.mp hv with h | h
        · cases h; exact absurd rfl hkf
        · exact ⟨v, h⟩

/-- C8: supplying an allowed key with a value of the wrong accepted
type makes the full parameter validation of SensorData (and, when
"fields" is supplied, of SensorsData and MembersData) reject the call
with the wrong-type validation error naming an offending key and its
dynamic type.  The typed encoding step is modelled from the spec, as
`paSensor` / `paSensors` are not under src/. -/
theorem c8_wrong_type_rejected (sp : SensorParams) :
    ((∀ p ∈ sp, singleAllowedKey p.1 = true) →
      (∃ p ∈ sp, PVal.typeName p.2 ≠ acceptedType p.1) →
      ∃ k v, (k, v) ∈ sp ∧ PVal.typeName v ≠ acceptedType k ∧
        sensorDataValidate sp = some (PAErr.badParamType k (PVal.typeName v))) ∧
    ((∀ p ∈ sp, bulkAllowedKey p.1 = true) → (∃ v, (paramFields, v) ∈ sp) →
      (∃ p ∈ sp, PVal.typeName p.2 ≠ acceptedType p.1) →
      ∃ k v, (k, v) ∈ sp ∧ PVal.typeName v ≠ acceptedType k ∧
        sensorsDataValidate sp = some (PAErr.badParamType k (PVal.typeName v)) ∧
        membersDataValidate sp = some (PAErr.badParamType k (PVal.typeName v))) := by
  constructor
  · intro hall hbad
    obtain ⟨k, v, hmem, ht, hres⟩ := paSensorParams_bad singleAllowedKey sp hall hbad
    refine ⟨k, v, hmem, ht, ?_⟩
    simp [sensorDataValidate, sensorDataCheck_allowed sp hall, hres]
  · intro hall hf hbad
    obtain ⟨k, v, hmem, ht, hres⟩ := paSensorParams_bad bulkAllowedKey sp hall hbad
    have hchk : sensorsDataCheck sp false = none :=
      sensorsDataCheck_fields_present sp hall hf false
    have hchk2 : membersDataCheck sp false = none := by
      rw [membersDataCheck_eq]; exact hchk
    refine ⟨k, v, hmem, ht, ?_, ?_⟩
    · simp [sensorsDataValidate, hchk, hres]
    · simp [membersDataValidate, hchk2, hres]

/-- C8 witness: an integer supplied for the string-typed "fields" key
is rejected by both the single-sensor and the bulk validation with the
wrong-type error. -/
theorem c8_wrong_type_rejected_witness :
    isBadParamTypeErr (sensorDataValidate [(paramFields, PVal.int 5)]) = true ∧
    isBadParamTypeErr (sensorsDataValidate [(paramFields, PVal.int 5)]) = true := by
  obtain ⟨k, v, -, -, hres⟩ :=
    (c8_wrong_type_rejected [(paramFields, PVal.int 5)]).1 (by decide)
      ⟨(paramFields, PVal.int 5), by decide, by decide⟩
  obtain ⟨k₂, v₂, -, -, hres₂, -⟩ :=
    (c8_wrong_type_rejected [(paramFields, PVal.int 5)]).2 (by decide)
      ⟨PVal.int 5, by decide⟩ ⟨(paramFields, PVal.int 5), by decide, by decide⟩
  constructor
  · rw [hres]; rfl
  · rw [hres₂]; rfl

/-- Looking up the key just inserted finds the inserted value. -/
theorem gmapLookup_insert_self {κ α : Type} [DecidableEq κ] (m : List (κ × α)) (k : κ) (v : α) :
    gmapLookup (gmapInsert m k v) k = some v := by
  induction m with
  | nil => simp [gmapInsert, gmapLookup]
  | cons q rest ih =>
      obtain ⟨k₀, v₀⟩ := q
      by_cases h : k₀ = k
      · subst h; simp [gmapInsert, gmapLookup]
      · simp [gmapInsert, gmapLookup, h, ih]

/-- Inserting under a different key does not change a lookup. -/
theorem gmapLookup_insert_ne {κ α : Type} [DecidableEq κ] (m : List (κ × α)) (k i : κ) (v : α)
    (h : i ≠ k) : gmapLookup (gmapInsert m k v) i = gmapLookup m i := by
  induction m with
  | nil => simp [gmapInsert, gmapLookup, Ne.symm h]
  | cons q rest ih =>
      obtain ⟨k₀, v₀⟩ := q
      by_cases h₀ : k₀ = k
      · subst h₀; simp [gmapInsert, gmapLookup, Ne.symm h]
      · by_cases hi : k₀ = i
        · subst hi; simp [gmapInsert, gmapLookup, h₀]
        · simp [gmapInsert, gmapLookup, h₀, hi, ih]

/-- A lookup after an insert succeeds for exactly the inserted key and
the keys already present. -/
theorem gmapLookup_insert_isSome {κ α : Type} [DecidableEq κ] (m : List (κ × α)) (k i : κ)
    (v : α) :
    (gmapLookup (gmapInsert m k v) i).isSome = true ↔
      i = k ∨ (gmapLookup m i).isSome = true := by
  by_cases h : i = k
  · subst h; simp [gmapLookup_insert_self]
  · rw [gmapLookup_insert_ne m k i v h]; simp [h]

/-- Inserting a fresh key grows the map by one entry. -/
theorem gmapInsert_length_fresh {κ α : Type} [DecidableEq κ] (m : List (κ × α)) (k : κ) (v : α)
    (h : gmapLookup m k = none) : (gmapInsert m k v).length = m.length + 1 := by
  induction m with
  | nil => rfl
  | cons q rest ih =>
      obtain ⟨k₀, v₀⟩ := q
      by_cases h₀ : k₀ = k
      · subst h₀; simp [gmapLookup] at h
      · simp only [gmapLookup, if_neg h₀] at h
        simp [gmapInsert, h₀, ih h]

/-- Unfolding `insertAll` over an empty list. -/
theorem insertAll_nil (acc : SensorDataSet) : insertAll [] acc = acc := rfl

/-- Unfolding `insertAll` over a cons. -/
theorem insertAll_cons (p : Int × SensorDataRow) (l : List (Int × SensorDataRow))
    (acc : SensorDataSet) : insertAll (p :: l) acc = insertAll l (gmapInsert acc p.1 p.2) := rfl

/-- Keys never touched by a sequence of inserts keep their lookups. -/
theorem gmapLookup_insertAll_not_mem (l : List (Int × SensorDataRow)) (acc : SensorDataSet)
    (i : Int) (h : i ∉ l.map Prod.fst) :
    gmapLookup (insertAll l acc) i = gmapLookup acc i := by
  induction l generalizing acc with
  | nil => rfl
  | cons p rest ih =>
      rw [insertAll_cons]
      have h1 : i ∉ rest.map Prod.fst := fun hm => h (by simp [hm])
      have h2 : i ≠ p.1 := fun he => h (by simp [he])
      rw [ih _ h1, gmapLookup_insert_ne acc p.1 i p.2 h2]

/-- Under pairwise-distinct keys, every inserted entry is retrievable
under its key after the whole sequence of inserts. -/
theorem gmapLookup_insertAll_mem (l : List (Int × SensorDataRow)) (acc : SensorDataSet)
    (p : Int × SensorDataRow) (hnd : (l.map Prod.fst).Nodup) (hp : p ∈ l) :
    gmapLookup (insertAll l acc) p.1 = some p.2 := by
  induction l generalizing acc with
  | nil => cases hp
  | cons q rest ih =>
      rw [List.map_cons, List.nodup_cons] at hnd
      rw [insertAll_cons]
      rcases List.mem_cons.mp hp with h | h
      · subst h
        rw [gmapLookup_insertAll_not_mem rest _ p.1 hnd.1, gmapLookup_insert_self]
      · exact ih _ hnd.2 h

/-- Domain of a sequence of inserts: the inserted keys plus the keys of
the accumulator. -/
theorem gmapLookup_insertAll_isSome (l : List (Int × SensorDataRow)) (acc : SensorDataSet)
    (i : Int) :
    (gmapLookup (insertAll l acc) i).isSome = true ↔
      i ∈ l.map Prod.fst ∨ (gmapLookup acc i).isSome = true := by
  induction l generalizing acc with
  | nil => simp [insertAll_nil]
  | cons p rest ih =>
      rw [insertAll_cons, ih, gmapLookup_insert_isSome]
      simp only [List.map_cons, List.mem_cons]
      tauto

/-- Inserting pairwise-distinct fresh keys grows the map by the number
of inserts. -/
theorem length_insertAll (l : List (Int × SensorDataRow)) (acc : SensorDataSet)
    (hnd : (l.map Prod.fst).Nodup)
    (hfresh : ∀ i ∈ l.map Prod.fst, gmapLookup acc i = none) :
    (insertAll l acc).length = acc.length + l.length := by
  induction l generalizing acc with
  | nil => rfl
  | cons p rest ih =>
      rw [List.map_cons, List.nodup_cons] at hnd
      rw [insertAll_cons]
      have hhead : gmapLookup acc p.1 = none := hfresh p.1 (by simp)
      have hfresh₂ : ∀ i ∈ rest.map Prod.fst, gmapLookup (gmapInsert acc p.1 p.2) i = none := by
        intro i hi
        have hne : i ≠ p.1 := by
          intro he
          subst he
          exact hnd.1 hi
        rw [gmapLookup_insert_ne acc p.1 i p.2 hne]
        exact hfresh i (by simp [hi])
      rw [ih _ hnd.2 hfresh₂, gmapInsert_length_fresh acc p.1 p.2 hhead, List.length_cons]
      omega

/-- Characterization of a successful run of the outer translation loop:
every row packs into a keyed row, and the result is the accumulator
extended by inserting each packed row in order. -/
theorem transcodeData_ok (resp : SensorsResp) :
    ∀ (rows : List (List JVal)) (acc m : SensorDataSet),
      transcodeData resp rows acc = TResult.ok m →
      (∀ r ∈ rows, ((rowPack resp r).isSome : Bool) = true) ∧
      m = insertAll (rows.filterMap (rowPack resp)) acc := by
  intro rows
  induction rows with
  | nil =>
      intro acc m h
      simp only [transcodeData] at h
      injection h with h
      subst h
      exact ⟨fun r hr => absurd hr (List.not_mem_nil r), rfl⟩
  | cons r rest ih =>
      intro acc m h
      rcases hr : transcodeRow resp r 0 [] with row | e | msg
      · rcases hsi : gmapLookup row "sensor_index" with - | jv
        · simp only [transcodeData, hr, hsi] at h
          exact TResult.noConfusion h
        · cases jv with
          | num si =>
              simp only [transcodeData, hr, hsi] at h
              obtain ⟨hall, hm⟩ := ih (gmapInsert acc si row) m h
              have hpack : rowPack resp r = some (si, row) := by
                simp [rowPack, hr, hsi]
              refine ⟨?_, ?_⟩
              · intro q hq
                rcases List.mem_cons.mp hq with h₀ | h₀
                · subst h₀; simp [hpack]
                · exact hall q h₀
              · rw [List.filterMap_cons_some hpack, insertAll_cons]
                exact hm
          | str s =>
              simp only [transcodeData, hr, hsi] at h
              exact TResult.noConfusion h
          | boolean b =>
              simp only [transcodeData, hr, hsi] at h
              exact TResult.noConfusion h
          | null =>
              simp only [transcodeData, hr, hsi] at h
              exact TResult.noConfusion h
      · simp only [transcodeData, hr] at h
        exact TResult.noConfusion h
      · simp only [transcodeData, hr] at h
        exact TResult.noConfusion h

/-- A filterMap that never drops keeps the length. -/
theorem length_filterMap_all_some {α β : Type} (f : α → Option β) :
    ∀ l : List α, (∀ a ∈ l, (f a).isSome = true) → (l.filterMap f).length = l.length := by
  intro l
  induction l with
  | nil => intro _; rfl
  | cons a rest ih =>
      intro h
      have ha := h a (List.mem_cons_self _ _)
      rcases hfa : f a with - | b
      · rw [hfa] at ha; cases ha
      · rw [List.filterMap_cons_some hfa]
        simp [ih (fun x hx => h x (List.mem_cons_of_mem _ hx))]

/-- The per-row keys are the keys of the packed rows, when every row
packs. -/
theorem map_rowKey_eq (resp : SensorsResp) :
    ∀ rows : List (List JVal), (∀ r ∈ rows, ((rowPack resp r).isSome : Bool) = true) →
      rows.map (rowKey resp) = ((rows.filterMap (rowPack resp)).map Prod.fst).map some := by
  intro rows
  induction rows with
  | nil => intro _; rfl
  | cons r rest ih =>
      intro h
      have hr := h r (List.mem_cons_self _ _)
      rcases hp : rowPack resp r with - | p
      · rw [hp] at hr; cases hr
      · rw [List.filterMap_cons_some hp]
        simp [rowKey, hp, ih (fun x hx => h x (List.mem_cons_of_mem _ hx))]

/-- C1 counterexample: a decoded bulk payload of two rows, each row
carrying a sensor_index column, whose transcoded Bulk Data Set holds a
single entry — the two rows collapse onto the shared key 42, so the
output does not contain exactly one entry for each input row. -/
theorem c1_duplicate_rows_collapse :
    c1DupResp.data.length = 2 ∧
    TResult.isOk (sensorsInfoData c1DupResp) = true ∧
    bulkSize (sensorsInfoData c1DupResp) = 1 := by
  decide

/-- C1 (amended): when the transcoding of a decoded bulk payload
succeeds and the rows' sensor-index keys are pairwise distinct, the
Bulk Data Set contains exactly one entry for each input row — no row is
dropped and no two rows collapse into one entry — each row retrievable
under its sensor-index key, and the set's keys are exactly the rows'
sensor indices (the set is keyed; no row order survives). -/
theorem c1_rows_bijective (resp : SensorsResp) (m : SensorDataSet)
    (hok : sensorsInfoData resp = TResult.ok m)
    (hnd : (resp.data.map (rowKey resp)).Nodup) :
    m.length = resp.data.length ∧
    (∀ r ∈ resp.data, ∃ p, rowPack resp r = some p ∧ gmapLookup m p.1 = some p.2) ∧
    (∀ i : Int, (gmapLookup m i).isSome = true ↔ some i ∈ resp.data.map (rowKey resp)) := by
  obtain ⟨hall, hm⟩ := transcodeData_ok resp resp.data [] m hok
  have hkeys : resp.data.map (rowKey resp) =
      ((resp.data.filterMap (rowPack resp)).map Prod.fst).map some :=
    map_rowKey_eq resp resp.data hall
  have hndk : ((resp.data.filterMap (rowPack resp)).map Prod.fst).Nodup := by
    rw [hkeys] at hnd
    exact hnd.of_map _
  refine ⟨?_, ?_, ?_⟩
  · rw [hm, length_insertAll _ [] hndk (fun i _ => rfl)]
    simp [length_filterMap_all_some _ _ hall]
  · intro r hr
    have hsome := hall r hr
    rcases hp : rowPack resp r with - | p
    · rw [hp] at hsome; cases hsome
    · refine ⟨p, rfl, ?_⟩
      rw [hm]
      exact gmapLookup_insertAll_mem _ [] p hndk (List.mem_filterMap.mpr ⟨r, hr, hp⟩)
  · intro i
    rw [hm, gmapLookup_insertAll_isSome, hkeys]
    simp [gmapLookup, List.mem_map]

/-- C1 witness: a two-row payload with distinct sensor indices yields a
two-entry Bulk Data Set. -/
theorem c1_rows_bijective_witness :
    ([(1, [("sensor_index", JVal.num 1)]), (2, [("sensor_index", JVal.num 2)])] :
        SensorDataSet).length = c1WResp.data.length :=
  (c1_rows_bijective c1WResp
    [(1, [("sensor_index", JVal.num 1)]), (2, [("sensor_index", JVal.num 2)])]
    (by decide) (by decide)).1

end Purpleair
